import Mathlib

/-!
Verification development for the CDP relay subsystem of this repository:
the WebSocket relay (`CDPWebSocketRelay`) and the extension-side CDP
adapter (`Extension` / `CDPAdapter`).

The embedding is shallow: each event handler of the source is a Lean
function from the relevant state and the handler arguments to the new
state together with the list of observable effects it performs (socket
sends, socket closes, log lines, dispatched protocol messages, native
debugger commands), in the order the source performs them.  Sockets are
identified by natural numbers; their ready states live in a `World`
function, mirroring `ws.readyState`.  Frames relayed by the relay are
kept opaque, as in the source, and modelled as byte lists.
-/

namespace PlaywrightMCP

/-- WebSocket ready states (`WebSocket.CONNECTING/OPEN/CLOSING/CLOSED`). -/
inductive SockState
  | connecting
  | opened
  | closing
  | closed
deriving DecidableEq, Repr

/-- Assignment of ready states to socket identifiers; mirrors reading
`sock.readyState` on a live socket. -/
abbrev World : Type := Nat → SockState

/-- Opaque frame payload: the relay performs no JSON parsing, so frames
are raw byte sequences. -/
abbrev ByteData : Type := List Nat

/-- Observable side effects of the relay server handlers, in program
order: `send` is `sock.send(data)`, `close` is `sock.close(code, reason)`,
`log` is a `debugLogger(...)` call (first argument recorded), and
`resolveWaiter` is `this._waiter?.resolve()`. -/
inductive RelayEffect
  | send (sock : Nat) (data : ByteData)
  | close (sock : Nat) (code : Nat) (reason : String)
  | log (msg : String)
  | resolveWaiter
deriving DecidableEq, Repr

/-- State of `CDPWebSocketRelay`: the fields `_extensionSocket`,
`_browserSocket`, `_extensionToken`, `_browserToken`, and whether a
`_waiter` manual promise is currently installed. -/
structure RelayState where
  extensionSocket : Option Nat
  browserSocket : Option Nat
  extensionToken : String
  browserToken : String
  waiter : Bool
deriving DecidableEq, Repr

/-- `private readonly kExtensionPath = '/extension'`. -/
def kExtensionPath : String := "/extension"

/-- `private readonly kBrowserPath = '/browser'`. -/
def kBrowserPath : String := "/browser"

/-- The `ws.on('message', ...)` handler installed by
`handleExtensionConnection` (part_003 lines 134-137): forward the frame
to the browser socket when it is open, otherwise do nothing.  The relay
state is returned unchanged because the handler mutates no field. -/
def handleExtensionMessage (st : RelayState) (w : World) (data : ByteData) :
    RelayState × List RelayEffect :=
  match st.browserSocket with
  | some b =>
      if w b = SockState.opened then (st, [RelayEffect.send b data]) else (st, [])
  | none => (st, [])

/-- The `ws.on('message', ...)` handler installed by
`handleBrowserConnection` (part_003 lines 110-115): forward the frame to
the extension socket when it is open, otherwise close the browser socket
with code 4001 and reason `No extension client connected`.  `ws` is the
browser socket the handler was installed on. -/
def handleBrowserMessage (st : RelayState) (w : World) (ws : Nat) (data : ByteData) :
    RelayState × List RelayEffect :=
  match st.extensionSocket with
  | some e =>
      if w e = SockState.opened then (st, [RelayEffect.send e data])
      else (st, [RelayEffect.close ws 4001 "No extension client connected"])
  | none => (st, [RelayEffect.close ws 4001 "No extension client connected"])

/-- `handleExtensionConnection(ws)` (part_003 lines 127-149): close a
still-open previous extension socket with `(1000, 'New extension
connection established')`, install `ws` as the sole extension socket,
and resolve the waiter if one is installed. -/
def handleExtensionConnection (st : RelayState) (w : World) (ws : Nat) :
    RelayState × List RelayEffect :=
  let closeEffs :=
    match st.extensionSocket with
    | some old =>
        if w old = SockState.opened then
          [RelayEffect.log "Closing previous extension connection.",
           RelayEffect.close old 1000 "New extension connection established"]
        else []
    | none => []
  let waiterEffs := if st.waiter then [RelayEffect.resolveWaiter] else []
  ({ st with extensionSocket := some ws }, closeEffs ++ waiterEffs)

/-- `handleBrowserConnection(ws)` (part_003 lines 106-108): install `ws`
as the browser socket. -/
def handleBrowserConnection (st : RelayState) (ws : Nat) :
    RelayState × List RelayEffect :=
  ({ st with browserSocket := some ws }, [RelayEffect.log "Browser client connected."])

/-- `_onConnection(ws, request)` (part_003 lines 80-104): route on the
URL pathname, compare the `token` query parameter (absent modelled as
`none`) against the role token with strict equality, and reject with
close code 4001 on mismatch or unknown path. -/
def onConnection (st : RelayState) (w : World) (ws : Nat)
    (path : String) (token : Option String) : RelayState × List RelayEffect :=
  if path = kExtensionPath then
    if token ≠ some st.extensionToken then
      (st, [RelayEffect.log "Invalid token for extension connection.",
            RelayEffect.close ws 4001 "Invalid token"])
    else
      handleExtensionConnection st w ws
  else if path = kBrowserPath then
    if token ≠ some st.browserToken then
      (st, [RelayEffect.log "Invalid token for browser connection.",
            RelayEffect.close ws 4001 "Invalid token"])
    else
      handleBrowserConnection st ws
  else
    (st, [RelayEffect.log "Invalid path for connection:",
          RelayEffect.close ws 4001 "Invalid path"])

/-- Deliver a sequence of frames to the extension-socket message handler
in arrival order, threading the relay state and concatenating the
effects in program order. -/
def runExtensionFrames (st : RelayState) (w : World) (frames : List ByteData) :
    RelayState × List RelayEffect :=
  match frames with
  | [] => (st, [])
  | d :: rest =>
      let r1 := handleExtensionMessage st w d
      let r2 := runExtensionFrames r1.1 w rest
      (r2.1, r1.2 ++ r2.2)

/-- Tiny JavaScript-value model for the JSON payloads the adapter builds
and dispatches.  `undef` stands for the JavaScript `undefined` that a
property such as `id: message.id` takes when the inbound message had no
`id`. -/
inductive JSVal
  | null
  | undef
  | bool (b : Bool)
  | num (n : Int)
  | str (s : String)
  | obj (fields : List (String × JSVal))

/-- An inbound CDP message after `JSON.parse` (part_001 line 112), with
the fields the adapter inspects: `id`, `method`, `params`, `sessionId`.
`none` models an absent (or `null`) property. -/
structure CDPMessage where
  id : Option Int
  method : Option String
  params : Option JSVal
  sessionId : Option String

/-- JavaScript truthiness of an optional string property: `undefined`,
`null` and the empty string are falsy; any other string is truthy.  Used
for `!message.sessionId` and `if (message.method)`. -/
def jsTruthyStr : Option String → Bool
  | none => false
  | some s => s ≠ ""

/-- The JavaScript value of `message.id` when spliced into an object
literal: `undefined` if the inbound message had no `id`. -/
def jsId : Option Int → JSVal
  | none => JSVal.undef
  | some n => JSVal.num n

/-- The JavaScript value of `message.sessionId` when spliced into an
object literal. -/
def jsSessionId : Option String → JSVal
  | none => JSVal.undef
  | some s => JSVal.str s

/-- An inbound socket frame as seen by `onBrowserMessage`: either it
decodes to a CDP message, or `JSON.parse` (or reading the frame body)
throws, which the source catches in its `try`/`catch`. -/
inductive Frame
  | malformed
  | text (msg : CDPMessage)

/-- Observable side effects of the adapter, in program order:
`dispatch` is `this.dispatch(data)` (a message handed to the WebSocket
uplink), `sendCommand` is `chrome.debugger.sendCommand(this._debuggee,
method, params)` (forwarding to the native debugger), `closeSocket` is
`socket.close()`, and `log` is a `debugLog(...)` call (first argument
recorded). -/
inductive AdapterEffect
  | dispatch (data : JSVal)
  | sendCommand (method : String) (params : Option JSVal)
  | closeSocket
  | log (msg : String)

/-- The `versionInfo` object literal built for `Browser.getVersion`
(part_001 lines 115-119); `userAgent` is the ambient
`navigator.userAgent`. -/
def versionInfo (userAgent : String) : JSVal :=
  JSVal.obj
    [("protocolVersion", JSVal.str "1.3"),
     ("userAgent", JSVal.str userAgent),
     ("product", JSVal.str "Chrome")]

/-- The synthesized `Target.attachedToTarget` event dispatched for a
session-less `Target.setAutoAttach` (part_001 lines 124-139), carrying
the fixed placeholder session id and the target/context identity
captured at attach time. -/
def attachedToTargetEvent (targetId browserContextId : String) : JSVal :=
  JSVal.obj
    [("method", JSVal.str "Target.attachedToTarget"),
     ("params", JSVal.obj
       [("sessionId", JSVal.str "dummy-session-id"),
        ("targetInfo", JSVal.obj
          [("targetId", JSVal.str targetId),
           ("browserContextId", JSVal.str browserContextId),
           ("type", JSVal.str "page"),
           ("title", JSVal.str ""),
           ("url", JSVal.str "data:text/html,"),
           ("attached", JSVal.bool true),
           ("canAccessOpener", JSVal.bool false)]),
        ("waitingForDebugger", JSVal.bool false)])]

/-- `CDPAdapter.onBrowserMessage(targetId, browserContextId, event)`
(part_001 lines 110-163), as the list of effects the handler performs
synchronously.  Branches in source order: `Browser.getVersion` answered
locally; `Target.setAutoAttach` without a (truthy) `sessionId` answered
locally with the synthesized attach event then an empty result;
`Browser.setDownloadBehavior` answered locally; any other message with a
truthy `method` forwarded to `chrome.debugger.sendCommand` (whose
asynchronous reply is dispatched later, outside this handler); a frame
that fails to decode is caught and logged.  `targetId` and
`browserContextId` are the values captured at attach time and bound into
the listener closure (part_001 line 80). -/
def onBrowserMessage (userAgent targetId browserContextId : String) (frame : Frame) :
    List AdapterEffect :=
  match frame with
  | Frame.malformed => [AdapterEffect.log "Error processing WebSocket message:"]
  | Frame.text message =>
      if message.method = some "Browser.getVersion" then
        [AdapterEffect.dispatch (JSVal.obj
          [("id", jsId message.id), ("result", versionInfo userAgent)])]
      else if message.method = some "Target.setAutoAttach"
          ∧ ¬ jsTruthyStr message.sessionId = true then
        [AdapterEffect.dispatch (attachedToTargetEvent targetId browserContextId),
         AdapterEffect.dispatch (JSVal.obj
           [("id", jsId message.id), ("result", JSVal.obj [])])]
      else if message.method = some "Browser.setDownloadBehavior" then
        [AdapterEffect.dispatch (JSVal.obj
          [("id", jsId message.id), ("result", JSVal.obj [])])]
      else
        match message.method with
        | some m =>
            if m ≠ "" then
              [AdapterEffect.log "Received command from WebSocket:",
               AdapterEffect.sendCommand m message.params]
            else []
        | none => []

/-- The `source` argument `chrome.debugger` passes to `onEvent`
listeners: the debuggee the event originated from. -/
structure DebuggerSource where
  tabId : Nat
deriving DecidableEq, Repr

/-- `CDPAdapter._onDebuggerEvent(source, method, params)` (part_001
lines 170-178): wrap every native event as `{method, params, sessionId:
'dummy-session-id'}` and dispatch it.  The source of the event is not
inspected. -/
def onDebuggerEvent (source : DebuggerSource) (method : String) (params : JSVal) :
    List AdapterEffect :=
  [AdapterEffect.log "CDP event:",
   AdapterEffect.dispatch (JSVal.obj
     [("method", JSVal.str method),
      ("params", params),
      ("sessionId", JSVal.str "dummy-session-id")])]

/-- State of one bridged tab for the teardown path: the keys of the
`Extension.adapters` map, the ready state of the WebSocket uplink, and
whether the native debugger is attached, together with counters of how
often `socket.close()` and `chrome.debugger.detach` have been invoked. -/
structure BridgeState where
  adapters : List Nat
  socketReady : SockState
  debuggerAttached : Bool
  socketCloseCalls : Nat
  debuggerDetachCalls : Nat
deriving DecidableEq, Repr

/-- Modelled from the spec: `chrome.debugger.detach(debuggee)` is part
of the external native debugging interface (spec section 6), not of this
repository.  Detaching a debuggee that is no longer attached fails with
an error; the repository itself records this behaviour in its other
adapter, whose cleanup wraps the call in `try`/`catch` with the comment
`Ignore detach errors - might already be detached` (part_002 lines
230-234).  The call counter is incremented on every invocation. -/
def chromeDebuggerDetach (st : BridgeState) : Except String BridgeState :=
  let st1 := { st with debuggerDetachCalls := st.debuggerDetachCalls + 1 }
  if st1.debuggerAttached then
    Except.ok { st1 with debuggerAttached := false }
  else
    Except.error "Debugger is not attached to the tab"

/-- The `adapter.onClose` closure installed in `Extension.onTabsUpdated`
(part_001 lines 71-76): delete the tab from the adapters map, then close
the socket only if its ready state is `OPEN` (`socket.close()` moves the
state to `CLOSING`). -/
def onCloseHandler (tabId : Nat) (st : BridgeState) : BridgeState :=
  let st1 := { st with adapters := st.adapters.erase tabId }
  if st1.socketReady = SockState.opened then
    { st1 with
        socketReady := SockState.closing,
        socketCloseCalls := st1.socketCloseCalls + 1 }
  else st1

/-- `CDPAdapter.detach()` (part_001 lines 188-193): `await
chrome.debugger.detach(this._debuggee)` with no surrounding
`try`/`catch`, so a rejection propagates out of the async function
before `this.onClose()` runs; on success the `onClose` closure runs.
(The two `removeListener` calls between them touch only the listener
registrations, modelled separately by `detachRemoveListeners`.) -/
def CDPAdapter.detach (tabId : Nat) (st : BridgeState) : Except String BridgeState :=
  match chromeDebuggerDetach st with
  | Except.error e => Except.error e
  | Except.ok st1 => Except.ok (onCloseHandler tabId st1)

/-- World of `chrome.debugger` listener registrations.  A JavaScript
function object is identified by its allocation id; `bind` allocates a
fresh function object on every call, so two `this._onDebuggerEvent.bind(this)`
expressions never denote the same object.  `nextId` is the allocation
counter; the lists hold the registered `onEvent` and `onDetach` listener
objects in registration order. -/
structure ListenerWorld where
  nextId : Nat
  onEventListeners : List Nat
  onDetachListeners : List Nat
deriving DecidableEq, Repr

/-- Allocate a fresh function object: the result of `f.bind(this)`. -/
def bindFresh (w : ListenerWorld) : Nat × ListenerWorld :=
  (w.nextId, { w with nextId := w.nextId + 1 })

/-- The `CDPAdapter` constructor (part_001 lines 96-98):
`chrome.debugger.onEvent.addListener(this._onDebuggerEvent.bind(this))`
then `chrome.debugger.onDetach.addListener(this._onDebuggerDetach.bind(this))`.
Returns the ids of the two function objects that were registered. -/
def ctorRegisterListeners (w : ListenerWorld) : (Nat × Nat) × ListenerWorld :=
  let e := bindFresh w
  let w1 := { e.2 with onEventListeners := e.2.onEventListeners ++ [e.1] }
  let d := bindFresh w1
  let w2 := { d.2 with onDetachListeners := d.2.onDetachListeners ++ [d.1] }
  ((e.1, d.1), w2)

/-- The two `removeListener` calls in `CDPAdapter.detach` (part_001
lines 190-191): each passes a freshly bound function object
(`this._onDebuggerEvent.bind(this)`, `this._onDebuggerDetach.bind(this)`),
and `removeListener` removes by object identity. -/
def detachRemoveListeners (w : ListenerWorld) : ListenerWorld :=
  let e := bindFresh w
  let w1 := { e.2 with onEventListeners := e.2.onEventListeners.erase e.1 }
  let d := bindFresh w1
  { d.2 with onDetachListeners := d.2.onDetachListeners.erase d.1 }

/-- Well-formedness of a listener world: every registered listener was
allocated before the current allocation counter. -/
def ListenerWorld.WF (w : ListenerWorld) : Prop :=
  (∀ i ∈ w.onEventListeners, i < w.nextId) ∧
  (∀ i ∈ w.onDetachListeners, i < w.nextId)

/-- C1: every frame received on the extension socket is forwarded
verbatim (byte-identical, unparsed, in arrival order) to the client
socket when it is open; otherwise it is dropped silently — no send, no
close, no log — and in every case the relay state is unchanged. -/
theorem extension_frames_forwarded_verbatim
    (st : RelayState) (w : World) (frames : List ByteData) :
    (∀ b, st.browserSocket = some b → w b = SockState.opened →
      runExtensionFrames st w frames = (st, frames.map (RelayEffect.send b)))
    ∧ (∀ b, st.browserSocket = some b → w b ≠ SockState.opened →
      runExtensionFrames st w frames = (st, []))
    ∧ (st.browserSocket = none → runExtensionFrames st w frames = (st, [])) := by
  induction frames with
  | nil => exact ⟨fun _ _ _ => rfl, fun _ _ _ => rfl, fun _ => rfl⟩
  | cons d rest ih =>
      refine ⟨fun b hb ho => ?_, fun b hb ho => ?_, fun hn => ?_⟩
      · have h1 : handleExtensionMessage st w d = (st, [RelayEffect.send b d]) := by
          simp [handleExtensionMessage, hb, ho]
        have h2 := ih.1 b hb ho
        simp [runExtensionFrames, h1, h2]
      · have h1 : handleExtensionMessage st w d = (st, []) := by
          simp [handleExtensionMessage, hb, ho]
        have h2 := ih.2.1 b hb ho
        simp [runExtensionFrames, h1, h2]
      · have h1 : handleExtensionMessage st w d = (st, []) := by
          simp [handleExtensionMessage, hn]
        have h2 := ih.2.2 hn
        simp [runExtensionFrames, h1, h2]

/-- Witness for C1 at a concrete relay state and frame sequence. -/
theorem extension_frames_forwarded_verbatim_witness :
    runExtensionFrames
      ⟨some 1, some 2, "etok", "btok", false⟩ (fun _ => SockState.opened)
      [[10, 20], [30]]
      = (⟨some 1, some 2, "etok", "btok", false⟩,
         [RelayEffect.send 2 [10, 20], RelayEffect.send 2 [30]]) :=
  (extension_frames_forwarded_verbatim
    ⟨some 1, some 2, "etok", "btok", false⟩ (fun _ => SockState.opened)
    [[10, 20], [30]]).1 2 rfl rfl

/-- C2: a connection on an unknown path, or with a token that is not
exactly the token generated for that path's role, is closed with code
4001 and a non-empty textual reason, and the relay state (in particular
any existing pairing of sockets) is left entirely unchanged. -/
theorem connection_rejected_leaves_state_unchanged
    (st : RelayState) (w : World) (ws : Nat) (path : String) (token : Option String)
    (h : (path ≠ kExtensionPath ∧ path ≠ kBrowserPath)
       ∨ (path = kExtensionPath ∧ token ≠ some st.extensionToken)
       ∨ (path = kBrowserPath ∧ token ≠ some st.browserToken)) :
    ∃ logMsg reason, reason ≠ ""
      ∧ onConnection st w ws path token
          = (st, [RelayEffect.log logMsg, RelayEffect.close ws 4001 reason]) := by
  rcases h with ⟨h1, h2⟩ | ⟨h1, h2⟩ | ⟨h1, h2⟩
  · exact ⟨"Invalid path for connection:", "Invalid path", by simp,
      by simp [onConnection, h1, h2]⟩
  · exact ⟨"Invalid token for extension connection.", "Invalid token", by simp,
      by simp [onConnection, h1, h2]⟩
  · refine ⟨"Invalid token for browser connection.", "Invalid token", by simp, ?_⟩
    simp [onConnection, h1, h2, kBrowserPath, kExtensionPath]

/-- Witness for C2 at a concrete state and a connection on an unknown
path. -/
theorem connection_rejected_leaves_state_unchanged_witness :
    ∃ logMsg reason, reason ≠ ""
      ∧ onConnection ⟨some 1, some 2, "etok", "btok", false⟩
            (fun _ => SockState.opened) 5 "/nope" none
          = (⟨some 1, some 2, "etok", "btok", false⟩,
             [RelayEffect.log logMsg, RelayEffect.close 5 4001 reason]) :=
  connection_rejected_leaves_state_unchanged
    ⟨some 1, some 2, "etok", "btok", false⟩ (fun _ => SockState.opened)
    5 "/nope" none (Or.inl ⟨by decide, by decide⟩)

/-- C3: when an authenticated connection arrives on the extension path
while a previous extension socket is open, the first effects close the
previous socket (code 1000, reason conveying supersession), and the new
socket becomes the sole extension socket of the resulting state. -/
theorem second_extension_connection_supersedes
    (st : RelayState) (w : World) (ws old : Nat)
    (hold : st.extensionSocket = some old) (hopen : w old = SockState.opened) :
    handleExtensionConnection st w ws
      = ({ st with extensionSocket := some ws },
         [RelayEffect.log "Closing previous extension connection.",
          RelayEffect.close old 1000 "New extension connection established"]
           ++ (if st.waiter then [RelayEffect.resolveWaiter] else [])) := by
  simp [handleExtensionConnection, hold, hopen]

/-- Witness for C3 at a concrete state with an open previous extension
socket. -/
theorem second_extension_connection_supersedes_witness :
    handleExtensionConnection ⟨some 3, none, "etok", "btok", false⟩
        (fun _ => SockState.opened) 9
      = (⟨some 9, none, "etok", "btok", false⟩,
         [RelayEffect.log "Closing previous extension connection.",
          RelayEffect.close 3 1000 "New extension connection established"]) :=
  second_extension_connection_supersedes
    ⟨some 3, none, "etok", "btok", false⟩ (fun _ => SockState.opened) 9 3 rfl rfl

/-- C4: a frame received on the client (browser) socket is forwarded to
the extension socket when it is open; when no extension socket is open
the client socket is closed with code 4001 and the reason `No extension
client connected`, and the frame is delivered nowhere.  The relay state
is unchanged in every case. -/
theorem browser_frame_requires_extension
    (st : RelayState) (w : World) (ws : Nat) (data : ByteData) :
    (∀ e, st.extensionSocket = some e → w e = SockState.opened →
      handleBrowserMessage st w ws data = (st, [RelayEffect.send e data]))
    ∧ (∀ e, st.extensionSocket = some e → w e ≠ SockState.opened →
      handleBrowserMessage st w ws data
        = (st, [RelayEffect.close ws 4001 "No extension client connected"]))
    ∧ (st.extensionSocket = none →
      handleBrowserMessage st w ws data
        = (st, [RelayEffect.close ws 4001 "No extension client connected"])) := by
  refine ⟨fun e he ho => ?_, fun e he ho => ?_, fun hn => ?_⟩ <;>
    simp [handleBrowserMessage, *]

/-- Witness for C4 at a concrete state with no extension socket. -/
theorem browser_frame_requires_extension_witness :
    handleBrowserMessage ⟨none, some 2, "etok", "btok", false⟩
        (fun _ => SockState.opened) 2 [42]
      = (⟨none, some 2, "etok", "btok", false⟩,
         [RelayEffect.close 2 4001 "No extension client connected"]) :=
  (browser_frame_requires_extension
    ⟨none, some 2, "etok", "btok", false⟩ (fun _ => SockState.opened) 2 [42]).2.2 rfl

/-- C5: an inbound frame decoding to a `Target.setAutoAttach` command
with no `sessionId` field is answered locally, dispatching in order one
synthesized `Target.attachedToTarget` event (carrying the placeholder
session id and the captured target/context identity) and then the reply
`{id: <request id>, result: {}}`; nothing is forwarded to the native
debugger. -/
theorem setAutoAttach_answered_locally
    (userAgent targetId browserContextId : String) (message : CDPMessage)
    (hm : message.method = some "Target.setAutoAttach")
    (hs : message.sessionId = none) :
    onBrowserMessage userAgent targetId browserContextId (Frame.text message)
      = [AdapterEffect.dispatch (attachedToTargetEvent targetId browserContextId),
         AdapterEffect.dispatch (JSVal.obj
           [("id", jsId message.id), ("result", JSVal.obj [])])]
    ∧ ∀ m p, AdapterEffect.sendCommand m p
        ∉ onBrowserMessage userAgent targetId browserContextId (Frame.text message) := by
  constructor
  · simp [onBrowserMessage, hm, hs, jsTruthyStr]
  · intro m p
    simp [onBrowserMessage, hm, hs, jsTruthyStr]

/-- Witness for C5 at a concrete `Target.setAutoAttach` message with id
2 and no session id. -/
theorem setAutoAttach_answered_locally_witness :
    onBrowserMessage "UA" "T1" "B1"
        (Frame.text ⟨some 2, some "Target.setAutoAttach", none, none⟩)
      = [AdapterEffect.dispatch (attachedToTargetEvent "T1" "B1"),
         AdapterEffect.dispatch (JSVal.obj
           [("id", JSVal.num 2), ("result", JSVal.obj [])])]
    ∧ ∀ m p, AdapterEffect.sendCommand m p
        ∉ onBrowserMessage "UA" "T1" "B1"
            (Frame.text ⟨some 2, some "Target.setAutoAttach", none, none⟩) :=
  setAutoAttach_answered_locally "UA" "T1" "B1"
    ⟨some 2, some "Target.setAutoAttach", none, none⟩ rfl rfl

/-- C6: an inbound frame decoding to a `Browser.getVersion` command with
any id is answered locally with a reply echoing that id whose result is
the `versionInfo` object — protocol version `1.3` plus a synthesized
product and user agent — and nothing is forwarded to the native
debugger. -/
theorem getVersion_answered_locally
    (userAgent targetId browserContextId : String) (message : CDPMessage)
    (hm : message.method = some "Browser.getVersion") :
    onBrowserMessage userAgent targetId browserContextId (Frame.text message)
      = [AdapterEffect.dispatch (JSVal.obj
           [("id", jsId message.id), ("result", versionInfo userAgent)])]
    ∧ versionInfo userAgent
        = JSVal.obj
            [("protocolVersion", JSVal.str "1.3"),
             ("userAgent", JSVal.str userAgent),
             ("product", JSVal.str "Chrome")]
    ∧ ∀ m p, AdapterEffect.sendCommand m p
        ∉ onBrowserMessage userAgent targetId browserContextId (Frame.text message) := by
  refine ⟨?_, rfl, ?_⟩
  · simp [onBrowserMessage, hm]
  · intro m p
    simp [onBrowserMessage, hm]

/-- Witness for C6 at the concrete message `{id: 7, method:
Browser.getVersion}`. -/
theorem getVersion_answered_locally_witness :
    onBrowserMessage "UA" "T1" "B1"
        (Frame.text ⟨some 7, some "Browser.getVersion", none, none⟩)
      = [AdapterEffect.dispatch (JSVal.obj
           [("id", JSVal.num 7), ("result", versionInfo "UA")])]
    ∧ versionInfo "UA"
        = JSVal.obj
            [("protocolVersion", JSVal.str "1.3"),
             ("userAgent", JSVal.str "UA"),
             ("product", JSVal.str "Chrome")]
    ∧ ∀ m p, AdapterEffect.sendCommand m p
        ∉ onBrowserMessage "UA" "T1" "B1"
            (Frame.text ⟨some 7, some "Browser.getVersion", none, none⟩) :=
  getVersion_answered_locally "UA" "T1" "B1"
    ⟨some 7, some "Browser.getVersion", none, none⟩ rfl

/-- C7: an inbound frame that fails to decode is caught and merely
logged: the handler produces exactly one log effect, so it dispatches no
reply, forwards nothing to the native debugger, and closes no socket. -/
theorem malformed_frame_logged_and_dropped
    (userAgent targetId browserContextId : String) :
    onBrowserMessage userAgent targetId browserContextId Frame.malformed
      = [AdapterEffect.log "Error processing WebSocket message:"]
    ∧ (∀ d, AdapterEffect.dispatch d
        ∉ onBrowserMessage userAgent targetId browserContextId Frame.malformed)
    ∧ (∀ m p, AdapterEffect.sendCommand m p
        ∉ onBrowserMessage userAgent targetId browserContextId Frame.malformed)
    ∧ AdapterEffect.closeSocket
        ∉ onBrowserMessage userAgent targetId browserContextId Frame.malformed := by
  refine ⟨rfl, ?_, ?_, ?_⟩ <;> simp [onBrowserMessage]

/-- C8: the claim demands idempotent teardown, but `CDPAdapter.detach`
does not guard its `await chrome.debugger.detach(...)`: after a first
completed teardown the debuggee is detached, so a second invocation of
`detach` rejects instead of completing quietly. -/
theorem detach_second_invocation_rejects :
    CDPAdapter.detach 7
        ⟨[7], SockState.opened, true, 0, 0⟩
      = Except.ok ⟨[], SockState.closing, false, 1, 1⟩
    ∧ CDPAdapter.detach 7
        ⟨[], SockState.closing, false, 1, 1⟩
      = Except.error "Debugger is not attached to the tab" :=
  ⟨rfl, rfl⟩

/-- C9: `_onDebuggerEvent` wraps every native debugger event as
`{method, params, sessionId: dummy-session-id}` and dispatches it; its
output is independent of the `source` debuggee, so events originating
from any tab are forwarded identically. -/
theorem debugger_event_source_ignored
    (s1 s2 : DebuggerSource) (method : String) (params : JSVal) :
    onDebuggerEvent s1 method params
      = [AdapterEffect.log "CDP event:",
         AdapterEffect.dispatch (JSVal.obj
           [("method", JSVal.str method),
            ("params", params),
            ("sessionId", JSVal.str "dummy-session-id")])]
    ∧ onDebuggerEvent s1 method params = onDebuggerEvent s2 method params :=
  ⟨rfl, rfl⟩

/-- C10: `CDPAdapter.detach` passes freshly bound function objects to
`removeListener`, so the listeners registered in the constructor are
never the ones removed: after construction followed by teardown the
listener registrations are unchanged and the constructor-registered
`onEvent` and `onDetach` listeners are still registered. -/
theorem detach_preserves_constructor_listeners
    (w : ListenerWorld) (hw : w.WF) :
    (detachRemoveListeners (ctorRegisterListeners w).2).onEventListeners
      = (ctorRegisterListeners w).2.onEventListeners
    ∧ (detachRemoveListeners (ctorRegisterListeners w).2).onDetachListeners
      = (ctorRegisterListeners w).2.onDetachListeners
    ∧ (ctorRegisterListeners w).1.1
        ∈ (detachRemoveListeners (ctorRegisterListeners w).2).onEventListeners
    ∧ (ctorRegisterListeners w).1.2
        ∈ (detachRemoveListeners (ctorRegisterListeners w).2).onDetachListeners := by
  obtain ⟨he, hd⟩ := hw
  have h1 : w.nextId + 2 ∉ w.onEventListeners ++ [w.nextId] := by
    simp only [List.mem_append, List.mem_singleton]
    rintro (h | h)
    · exact absurd (he _ h) (by omega)
    · omega
  have h2 : w.nextId + 3 ∉ w.onDetachListeners ++ [w.nextId + 1] := by
    simp only [List.mem_append, List.mem_singleton]
    rintro (h | h)
    · exact absurd (hd _ h) (by omega)
    · omega
  simp [ctorRegisterListeners, detachRemoveListeners, bindFresh,
        List.erase_of_not_mem h1, List.erase_of_not_mem h2]

/-- Witness for C10 at the empty listener world. -/
theorem detach_preserves_constructor_listeners_witness :
    ListenerWorld.WF ⟨0, [], []⟩
    ∧ ((detachRemoveListeners (ctorRegisterListeners ⟨0, [], []⟩).2).onEventListeners
        = (ctorRegisterListeners ⟨0, [], []⟩).2.onEventListeners
      ∧ (detachRemoveListeners (ctorRegisterListeners ⟨0, [], []⟩).2).onDetachListeners
        = (ctorRegisterListeners ⟨0, [], []⟩).2.onDetachListeners
      ∧ (ctorRegisterListeners ⟨0, [], []⟩).1.1
          ∈ (detachRemoveListeners (ctorRegisterListeners ⟨0, [], []⟩).2).onEventListeners
      ∧ (ctorRegisterListeners ⟨0, [], []⟩).1.2
          ∈ (detachRemoveListeners (ctorRegisterListeners ⟨0, [], []⟩).2).onDetachListeners) :=
  ⟨⟨by simp, by simp⟩,
   detach_preserves_constructor_listeners ⟨0, [], []⟩ ⟨by simp, by simp⟩⟩

end PlaywrightMCP
